import Mathlib

/-!
Shallow embedding of the voice turn coordinator of this repository:
the speech-recognition hook (src/src/hooks/useSpeechRecognition.ts) and the
hands-free conversation logic of the App component. React state updates are
modelled as explicit state passing; browser timer and recognizer events are
modelled as an event type acted on by a step function.
-/

namespace SpeechChat

/-- One entry of a recognition result event: the platform marks it final or
interim and carries its transcript text (result[0].transcript in the source). -/
structure Segment where
  isFinal : Bool
  text : String
deriving DecidableEq

/-- State of the useSpeechRecognition hook: the React state variables
(isListening, transcript, finalTranscript), the refs (silenceTimerRef,
onSpeechEndRef, recognitionRef modelled as a presence flag), plus model
bookkeeping: a log of callback invocations (pairs of callback id and the text
it was invoked with), whether a recognizer session is in flight, whether
recognition.stop() has been requested, and whether the hosting component was
torn down. -/
structure CoordState where
  isListening : Bool
  transcript : String
  finalTranscript : String
  callback : Option Nat
  silenceTimer : Option Nat
  invocations : List (Nat × String)
  recognition : Bool
  sessionActive : Bool
  stopRequested : Bool
  destroyed : Bool
deriving DecidableEq

/-- Initial hook state once the effect has created the recognizer instance
(platform supported, nothing listening, empty transcripts). -/
def initCoord : CoordState :=
  { isListening := false
    transcript := ""
    finalTranscript := ""
    callback := none
    silenceTimer := none
    invocations := []
    recognition := true
    sessionActive := false
    stopRequested := false
    destroyed := false }

/-- recognition.onstart (source lines 54-58): set isListening, clear both
transcript parts. A fresh session also clears any pending stop request. -/
def onstart (s : CoordState) : CoordState :=
  { s with isListening := true, transcript := "", finalTranscript := ""
           sessionActive := true, stopRequested := false }

/-- The loop body of recognition.onresult accumulating the final portion of
the event (source lines 73-80, the isFinal branch). -/
def onresultFinalText (segs : List Segment) : String :=
  segs.foldl (fun acc r => if r.isFinal then acc ++ r.text else acc) ""

/-- The loop body of recognition.onresult accumulating the interim portion of
the event (source lines 73-80, the non-final branch). -/
def onresultInterimText (segs : List Segment) : String :=
  segs.foldl (fun acc r => if r.isFinal then acc else acc ++ r.text) ""

/-- recognition.onresult (source lines 69-99): append the event's final
portion to finalTranscript (guarded by JS truthiness of the final portion),
replace transcript by the event's interim portion wholesale, clear any pending
silence timer and arm a fresh 2000 ms one. -/
def onresult (segs : List Segment) (s : CoordState) : CoordState :=
  let currentFinal := onresultFinalText segs
  let interim := onresultInterimText segs
  { s with
    finalTranscript :=
      if currentFinal ≠ "" then s.finalTranscript ++ currentFinal
      else s.finalTranscript
    transcript := interim
    silenceTimer := some 2000 }

/-- recognition.onend (source lines 60-67): leave the listening state; if the
committed transcript is non-empty and a callback is stored, invoke the
callback with it and clear the committed transcript. The stored callback
itself is not touched. -/
def onend (s : CoordState) : CoordState :=
  let s1 := { s with isListening := false, sessionActive := false }
  match s1.callback with
  | some cb =>
      if s1.finalTranscript ≠ "" then
        { s1 with invocations := s1.invocations ++ [(cb, s1.finalTranscript)]
                  finalTranscript := "" }
      else s1
  | none => s1

/-- recognition.onerror (source lines 101-107): leave the listening state and
cancel any pending silence timer. -/
def onerror (s : CoordState) : CoordState :=
  { s with isListening := false, silenceTimer := none }

/-- The silence timer firing (the setTimeout body, source lines 94-98): if the
recognizer instance exists and we are listening, request recognition.stop().
Firing consumes the pending timer. -/
def fireSilence (s : CoordState) : CoordState :=
  match s.silenceTimer with
  | none => s
  | some _ =>
      let s1 := { s with silenceTimer := none }
      if s1.recognition && s1.isListening then { s1 with stopRequested := true }
      else s1

/-- startListening (source lines 120-127): only when a recognizer exists and
we are not already listening, store the optional one-shot callback, clear both
transcript parts and start recognition. Otherwise nothing at all happens. -/
def startListening (cb : Option Nat) (s : CoordState) : CoordState :=
  if s.recognition && !s.isListening then
    { s with callback := cb, transcript := "", finalTranscript := "" }
  else s

/-- stopListening (source lines 129-136): if listening, request
recognition.stop(); in any case cancel a pending silence timer. -/
def stopListening (s : CoordState) : CoordState :=
  let s1 :=
    if s.recognition && s.isListening then { s with stopRequested := true }
    else s
  { s1 with silenceTimer := none }

/-- resetTranscript (source lines 138-141): clear both transcript parts. -/
def resetTranscript (s : CoordState) : CoordState :=
  { s with transcript := "", finalTranscript := "" }

/-- The transcript field the hook returns to the caller (source line 145):
committed text followed by interim text. -/
def hookTranscript (s : CoordState) : String :=
  s.finalTranscript ++ s.transcript

/-- The useEffect cleanup (source lines 110-117) at component teardown: abort
the in-flight recognition session and clear the pending silence timer. Nothing
else happens: the handlers stay attached to the recognizer instance and
onSpeechEndRef keeps its value; the destroyed flag only records that the
cleanup ran. -/
def teardown (s : CoordState) : CoordState :=
  { s with sessionActive := false, silenceTimer := none, destroyed := true }

/-- Events delivered to the hook: recognizer lifecycle events, the silence
timer elapsing, and the caller-facing operations. -/
inductive Event
  | start
  | result (segs : List Segment)
  | endEv
  | error
  | silenceElapsed
  | callStart (cb : Option Nat)
  | callStop
  | callReset
deriving DecidableEq

/-- Event dispatch. Teardown detaches nothing: the cleanup only calls abort()
and clearTimeout, so an event the platform still delivers afterwards — in
particular the end event that abort() itself fires — runs the attached
handler. -/
def step (s : CoordState) (ev : Event) : CoordState :=
  match ev with
  | .start => onstart s
  | .result segs => onresult segs s
  | .endEv => onend s
  | .error => onerror s
  | .silenceElapsed => fireSilence s
  | .callStart cb => startListening cb s
  | .callStop => stopListening s
  | .callReset => resetTranscript s

/-- Run a sequence of events. -/
def run (s : CoordState) (evs : List Event) : CoordState :=
  evs.foldl step s

/-- Process a sequence of recognition result events within one session. -/
def runResults (s : CoordState) (evs : List (List Segment)) : CoordState :=
  evs.foldl (fun st segs => onresult segs st) s

/-- Specification-side reading of the committed transcript: the concatenation,
in arrival order, of the text of every segment marked final. -/
def finalsOf : List Segment → String
  | [] => ""
  | r :: rs => (if r.isFinal then r.text else "") ++ finalsOf rs

/-- Specification-side reading across a whole session: final segments of each
result event, concatenated in arrival order of the events. -/
def finalsOfEvents : List (List Segment) → String
  | [] => ""
  | e :: es => finalsOf e ++ finalsOfEvents es

/-- Message kinds of the chat message list. -/
inductive MsgType
  | user
  | bot
deriving DecidableEq

/-- A chat message as far as the voice flow observes it. -/
structure Msg where
  type : MsgType
  message : String
deriving DecidableEq

/-- A retrieval source attached to a backend answer. -/
structure Source where
  title : String
  chunk : String
deriving DecidableEq

/-- The backend chat response shape consumed by handleVoiceConversation. -/
structure ChatResponse where
  id : Option String
  textResponse : String
  sources : List Source
deriving DecidableEq

/-- A backend failure: a ChatApiError carrying a displayable message, or any
other thrown error. -/
inductive ChatError
  | api (message : String)
  | other
deriving DecidableEq

/-- Model of JavaScript String.prototype.trim as used by the guard
`if (!spokenText.trim()) return;`: drop leading and trailing whitespace. -/
def jsTrim (s : String) : String :=
  String.mk (((s.data.dropWhile Char.isWhitespace).reverse.dropWhile
    Char.isWhitespace).reverse)

/-- The substitute error text chosen in the catch branch. -/
def errorMessageOf : ChatError → String
  | .api m => m
  | .other => "Üzgünüm, bir hata oluştu. Lütfen tekrar deneyin."

/-- App component state touched by the voice conversation flow. -/
structure AppState where
  messages : List Msg
  input : String
  isLoading : Bool
  sources : List Source
  isVoiceMode : Bool
deriving DecidableEq

/-- Externally visible side effects emitted by the voice flow: a call to
stopSpeaking, a call to speak with the given text, or a setTimeout that will
call startListening(handleVoiceConversation) after the given delay in ms. -/
inductive Action
  | stopSpeakingCall
  | speakCall (text : String)
  | scheduleListen (delayMs : Nat)
deriving DecidableEq

/-- handleVoiceConversation (App source lines 47-121), with the awaited
backend call passed in as its result: guard on whitespace-only text; append
the user message; on success append the bot message, update sources, and speak
a non-empty response; on failure append the substitute bot error message and,
in voice mode, schedule re-listening after 2000 ms. The finally branch leaves
isLoading false. The completion callback passed to speak is modelled
separately as voiceSpeakOnDone. -/
def handleVoiceConversation (spokenText : String)
    (result : Except ChatError ChatResponse) (s : AppState) :
    AppState × List Action :=
  if jsTrim spokenText = "" then (s, [])
  else
    let userMessage : Msg := { type := .user, message := spokenText }
    let s1 := { s with messages := s.messages ++ [userMessage], isLoading := true }
    match result with
    | .ok data =>
        let botMessage : Msg := { type := .bot, message := data.textResponse }
        let s2 := { s1 with
          messages := s1.messages ++ [botMessage]
          sources := if data.sources.length > 0 then data.sources else [] }
        let speakActs :=
          if data.textResponse ≠ "" then [Action.speakCall data.textResponse]
          else []
        ({ s2 with isLoading := false }, [Action.stopSpeakingCall] ++ speakActs)
    | .error e =>
        let botMessage : Msg := { type := .bot, message := errorMessageOf e }
        let s2 := { s1 with messages := s1.messages ++ [botMessage] }
        let listenActs :=
          if s1.isVoiceMode then [Action.scheduleListen 2000] else []
        ({ s2 with isLoading := false }, [Action.stopSpeakingCall] ++ listenActs)

/-- The onDone callback handleVoiceConversation passes to speak (App source
lines 87-94): if voice mode is still active, schedule startListening after a
1000 ms delay. -/
def voiceSpeakOnDone (s : AppState) : List Action :=
  if s.isVoiceMode then [Action.scheduleListen 1000] else []

/-- The transcript-consuming effect of the App component (source lines
259-264): when the hook transcript is non-empty and voice mode is off, copy it
into the input field and reset the internal transcript. -/
def surfaceTranscript (app : AppState) (c : CoordState) : AppState × CoordState :=
  if hookTranscript c ≠ "" ∧ app.isVoiceMode = false then
    ({ app with input := hookTranscript c }, resetTranscript c)
  else (app, c)

/-- Modelled from the spec: the useSpeechSynthesis hook
(src/hooks/useSpeechSynthesis.ts) is imported by the App component but its
source is not included under src/. State of the synthesis side: the list of
currently active utterances (spec: at most one is ever current) and the
isSpeaking flag the hook exposes. -/
structure SynthState where
  active : List String
  isSpeaking : Bool
deriving DecidableEq

/-- Modelled from the spec: initial synthesis state, nothing speaking. -/
def synthInit : SynthState :=
  { active := [], isSpeaking := false }

/-- Modelled from the spec: stopSpeaking immediately halts any in-progress
synthesis; safe to call when not speaking. -/
def stopSpeaking (s : SynthState) : SynthState :=
  { s with active := [], isSpeaking := false }

/-- Modelled from the spec: speak(text, onDone) stops the current utterance
first when already speaking (last-call-wins, no queueing), then starts the new
utterance. -/
def speak (text : String) (s : SynthState) : SynthState :=
  let s1 := if s.isSpeaking then stopSpeaking s else s
  { s1 with active := s1.active ++ [text], isSpeaking := true }

/-- Modelled from the spec: natural completion of the current utterance. -/
def utteranceDone (s : SynthState) : SynthState :=
  { s with active := [], isSpeaking := false }

/-- Operations a caller can perform on the synthesis side. -/
inductive SynthOp
  | speakOp (text : String)
  | stopOp
  | doneOp
deriving DecidableEq

/-- Dispatch of synthesis operations. -/
def synthStep (s : SynthState) : SynthOp → SynthState
  | .speakOp t => speak t s
  | .stopOp => stopSpeaking s
  | .doneOp => utteranceDone s

/-- Run a sequence of synthesis operations. -/
def synthRun (s : SynthState) (ops : List SynthOp) : SynthState :=
  ops.foldl synthStep s

/-- Invariant of the synthesis state: when not speaking nothing is active, and
never more than one utterance is active. -/
def SynthInv (s : SynthState) : Prop :=
  (s.isSpeaking = false → s.active = []) ∧ s.active.length ≤ 1

/-- One full session trace: start listening with a registered callback, the
recognizer delivers the final segment "merhaba", then the session ends. -/
def c2state : CoordState :=
  onend (onresult [{ isFinal := true, text := "merhaba" }]
    (onstart (startListening (some 0) initCoord)))

/-- A hook state with a stored callback and a non-empty committed transcript,
ready for the session-end handler. -/
def c2w : CoordState :=
  { initCoord with callback := some 7, finalTranscript := "merhaba" }

/-- A listening hook state right after an interim result event, with the
silence timer armed. -/
def c3state : CoordState :=
  onresult [{ isFinal := false, text := "a" }] (onstart initCoord)

/-- A concrete App state in hands-free voice mode. -/
def appW : AppState :=
  { messages := [], input := "", isLoading := false, sources := []
    isVoiceMode := true }

/-- A concrete App state in manual (non-hands-free) mode. -/
def c7app : AppState :=
  { messages := [], input := "", isLoading := false, sources := []
    isVoiceMode := false }

/-- A hook state holding a finalized transcript ready to be surfaced. -/
def c7coord : CoordState :=
  { initCoord with finalTranscript := "test mesajı" }

/-- A concrete successful backend response. -/
def respW : ChatResponse :=
  { id := none, textResponse := "cevap", sources := [] }

/-- Teardown in the middle of a listening session that already committed the
final segment "merhaba" with a one-shot callback stored: the cleanup aborts
the session and clears the timer, nothing more. -/
def c8state : CoordState :=
  teardown (onresult [{ isFinal := true, text := "merhaba" }]
    (onstart (startListening (some 0) initCoord)))

/-! ## Helper lemmas -/

theorem append_ne_empty_left (a b : String) (h : a ≠ "") : a ++ b ≠ "" := by
  intro hab
  apply h
  have hd : a.data ++ b.data = [] := by
    have := congrArg String.data hab
    simpa [String.data_append] using this
  exact String.ext (List.append_eq_nil.mp hd).1

theorem foldlFinal_eq (segs : List Segment) (acc : String) :
    segs.foldl (fun a r => if r.isFinal then a ++ r.text else a) acc
      = acc ++ finalsOf segs := by
  induction segs generalizing acc with
  | nil => simp [finalsOf]
  | cons r rs ih =>
      simp only [List.foldl_cons, finalsOf]
      by_cases h : r.isFinal = true
      · simp [h, ih, String.append_assoc]
      · simp [h, ih]

theorem onresultFinalText_eq (segs : List Segment) :
    onresultFinalText segs = finalsOf segs := by
  simpa using foldlFinal_eq segs ""

theorem onresult_finalTranscript (segs : List Segment) (s : CoordState) :
    (onresult segs s).finalTranscript
      = s.finalTranscript ++ onresultFinalText segs := by
  by_cases h : onresultFinalText segs = "" <;> simp [onresult, h]

theorem onresult_transcript (segs : List Segment) (s : CoordState) :
    (onresult segs s).transcript = onresultInterimText segs := by
  simp [onresult]

theorem onresult_silenceTimer (segs : List Segment) (s : CoordState) :
    (onresult segs s).silenceTimer = some 2000 := by
  simp [onresult]

theorem runResults_finalTranscript (evs : List (List Segment)) (s : CoordState) :
    (runResults s evs).finalTranscript
      = s.finalTranscript ++ finalsOfEvents evs := by
  induction evs generalizing s with
  | nil => simp [runResults, finalsOfEvents]
  | cons e es ih =>
      show (runResults (onresult e s) es).finalTranscript = _
      rw [ih, onresult_finalTranscript, onresultFinalText_eq, finalsOfEvents,
        String.append_assoc]

theorem runResults_transcript (evs : List (List Segment)) (s : CoordState) :
    (runResults s evs).transcript
      = (evs.map onresultInterimText).getLastD s.transcript := by
  induction evs generalizing s with
  | nil => simp [runResults]
  | cons e es ih =>
      show (runResults (onresult e s) es).transcript = _
      rw [ih, onresult_transcript, List.map_cons, List.getLastD_cons]

theorem onend_isListening (s : CoordState) : (onend s).isListening = false := by
  cases c : s.callback <;> by_cases h : s.finalTranscript = "" <;>
    simp [onend, c, h]

theorem synthStep_inv (s : SynthState) (op : SynthOp) (h : SynthInv s) :
    SynthInv (synthStep s op) := by
  obtain ⟨h1, h2⟩ := h
  cases op with
  | speakOp t =>
      by_cases hs : s.isSpeaking = true
      · simp [synthStep, speak, stopSpeaking, hs, SynthInv]
      · have hf : s.isSpeaking = false := by
          revert hs; cases s.isSpeaking <;> simp
        simp [synthStep, speak, hf, h1 hf, SynthInv]
  | stopOp => simp [synthStep, stopSpeaking, SynthInv]
  | doneOp => simp [synthStep, utteranceDone, SynthInv]

theorem synthRun_inv (ops : List SynthOp) (s : SynthState) (h : SynthInv s) :
    SynthInv (synthRun s ops) := by
  induction ops generalizing s with
  | nil => exact h
  | cons o os ih => exact ih (synthStep s o) (synthStep_inv s o h)

/-! ## Claims -/

/-- Claim C1: for every sequence of recognition result events within one
listening session, the committed transcript equals the concatenation, in
arrival order, of every segment the recognizer marked final; the interim
transcript equals the interim portion of the most recently received result
event; and the transcript exposed to the caller is the committed text followed
by the interim text. -/
theorem C1_session_transcript (s0 : CoordState) (evs : List (List Segment)) :
    (runResults (onstart s0) evs).finalTranscript = finalsOfEvents evs
    ∧ (runResults (onstart s0) evs).transcript
        = (evs.map onresultInterimText).getLastD ""
    ∧ hookTranscript (runResults (onstart s0) evs)
        = (runResults (onstart s0) evs).finalTranscript
          ++ (runResults (onstart s0) evs).transcript := by
  refine ⟨?_, ?_, rfl⟩
  · rw [runResults_finalTranscript]
    simp [onstart]
  · rw [runResults_transcript]
    simp [onstart]

/-- Claim C2 counterexample: in a session that starts listening with a
registered callback, receives the final segment "merhaba" and then ends, the
callback is invoked, yet the stored callback is not cleared afterwards — it is
still registered. -/
theorem C2_counterexample :
    c2state.invocations = [(0, "merhaba")] ∧ c2state.callback = some 0 := by
  decide

/-- Claim C2 (amended): the one-shot callback is invoked at most once per
session end, only when the session ends with a non-empty committed transcript
and a callback is stored, and it receives exactly that transcript; after
invocation the committed transcript (not the stored callback) is cleared, so a
repeated session end adds no further invocation; the stored callback is never
cleared by the session-end invocation nor by stopListening — it persists until
a later startListening stores the new one. -/
theorem C2_amended_callback (s : CoordState) :
    (onend (onend s)).invocations = (onend s).invocations
    ∧ (s.finalTranscript = "" → (onend s).invocations = s.invocations)
    ∧ (s.callback = none → (onend s).invocations = s.invocations)
    ∧ (∀ cb : Nat, s.callback = some cb → s.finalTranscript ≠ "" →
        (onend s).invocations = s.invocations ++ [(cb, s.finalTranscript)]
        ∧ (onend s).finalTranscript = "")
    ∧ (onend s).callback = s.callback
    ∧ (stopListening s).callback = s.callback
    ∧ (∀ cb2 : Option Nat, s.recognition = true → s.isListening = false →
        (startListening cb2 s).callback = cb2) := by
  refine ⟨?_, ?_, ?_, ?_, ?_, ?_, ?_⟩
  · cases c : s.callback <;> by_cases h : s.finalTranscript = "" <;>
      simp [onend, c, h]
  · intro h
    cases c : s.callback <;> simp [onend, c, h]
  · intro h
    by_cases hf : s.finalTranscript = "" <;> simp [onend, h, hf]
  · intro cb hc hf
    constructor <;> simp [onend, hc, hf]
  · cases c : s.callback <;> by_cases h : s.finalTranscript = "" <;>
      simp [onend, c, h]
  · cases hc : s.recognition && s.isListening <;> simp [stopListening, hc]
  · intro cb2 hr hl
    simp [startListening, hr, hl]

/-- Claim C2 amended, witness: at a concrete state with stored callback 7 and
committed transcript "merhaba", the session end invokes the callback with that
text, a second session end adds nothing, neither the session end nor
stopListening clears the stored callback, and a later startListening replaces
it. -/
theorem C2_amended_witness :
    (onend c2w).invocations = c2w.invocations ++ [(7, "merhaba")]
    ∧ (onend (onend c2w)).invocations = (onend c2w).invocations
    ∧ (onend c2w).callback = c2w.callback
    ∧ (stopListening c2w).callback = c2w.callback
    ∧ (startListening (some 8) c2w).callback = some 8 :=
  ⟨((C2_amended_callback c2w).2.2.2.1 7 rfl (by decide)).1,
   (C2_amended_callback c2w).1,
   (C2_amended_callback c2w).2.2.2.2.1,
   (C2_amended_callback c2w).2.2.2.2.2.1,
   (C2_amended_callback c2w).2.2.2.2.2.2 (some 8) rfl rfl⟩

/-- Claim C3: while listening, every recognition result event re-arms the
2000 ms silence timer, and if the timer elapses with no further event the
coordinator requests recognizer stop, after which the session end leaves the
listening state. -/
theorem C3_silence_timer (s : CoordState) (_h0 : s.destroyed = false)
    (h1 : s.isListening = true) (h2 : s.recognition = true)
    (h3 : s.silenceTimer ≠ none) :
    (∀ (s2 : CoordState) (segs : List Segment),
        (onresult segs s2).silenceTimer = some 2000)
    ∧ (step s .silenceElapsed).stopRequested = true
    ∧ (step (step s .silenceElapsed) .endEv).isListening = false := by
  have e1 : step s .silenceElapsed
      = { s with silenceTimer := none, stopRequested := true } := by
    cases ht : s.silenceTimer with
    | none => exact absurd ht h3
    | some t => simp [step, fireSilence, ht, h1, h2]
  refine ⟨fun s2 segs => onresult_silenceTimer segs s2, by rw [e1], ?_⟩
  rw [e1]
  exact onend_isListening _

/-- Claim C3 witness: at a concrete listening state with the timer armed, the
silence elapse requests a stop and the session end leaves listening. -/
theorem C3_witness :
    (step c3state .silenceElapsed).stopRequested = true
    ∧ (step (step c3state .silenceElapsed) .endEv).isListening = false :=
  ⟨(C3_silence_timer c3state (by decide) (by decide) (by decide)
      (by decide)).2.1,
   (C3_silence_timer c3state (by decide) (by decide) (by decide)
      (by decide)).2.2⟩

/-- Claim C4: calling startListening while already listening leaves the whole
hook state unchanged: listening flag, both transcript parts and the stored
callback included. -/
theorem C4_start_noop (s : CoordState) (cb : Option Nat)
    (h : s.isListening = true) : startListening cb s = s := by
  simp [startListening, h]

/-- Claim C4 witness: a second startListening with a different callback on a
concrete listening session with callback 3 registered changes nothing. -/
theorem C4_witness :
    startListening (some 9) (onstart (startListening (some 3) initCoord))
      = onstart (startListening (some 3) initCoord) :=
  C4_start_noop (onstart (startListening (some 3) initCoord)) (some 9)
    (by decide)

/-- Claim C5: when the backend call throws during a hands-free turn, the
substitute bot error message is appended after the user message, speak is
never invoked, and while voice mode is active re-listening is scheduled after
the longer 2000 ms cooldown. -/
theorem C5_backend_error (s : AppState) (text : String) (e : ChatError)
    (h : jsTrim text ≠ "") :
    (handleVoiceConversation text (.error e) s).1.messages
        = s.messages ++ [{ type := .user, message := text },
                         { type := .bot, message := errorMessageOf e }]
    ∧ (∀ t : String,
        Action.speakCall t ∉ (handleVoiceConversation text (.error e) s).2)
    ∧ (s.isVoiceMode = true →
        Action.scheduleListen 2000 ∈ (handleVoiceConversation text (.error e) s).2) := by
  cases hv : s.isVoiceMode <;>
    refine ⟨?_, ?_, ?_⟩ <;>
      simp [handleVoiceConversation, h, hv]

/-- Claim C5 witness: a concrete failed hands-free turn in voice mode appends
the error bot message, schedules the 2000 ms re-listen and never speaks. -/
theorem C5_witness :
    (handleVoiceConversation "merhaba" (.error .other) appW).1.messages
        = appW.messages ++ [{ type := .user, message := "merhaba" },
                            { type := .bot, message := errorMessageOf .other }]
    ∧ Action.speakCall "x" ∉ (handleVoiceConversation "merhaba" (.error .other) appW).2
    ∧ Action.scheduleListen 2000 ∈ (handleVoiceConversation "merhaba" (.error .other) appW).2 :=
  ⟨(C5_backend_error appW "merhaba" .other (by decide)).1,
   (C5_backend_error appW "merhaba" .other (by decide)).2.1 "x",
   (C5_backend_error appW "merhaba" .other (by decide)).2.2 rfl⟩

/-- Claim C6: on a successful hands-free turn with a non-empty backend
response, speak is invoked with the response text, and the completion callback
passed to speak schedules startListening after the fixed 1000 ms delay
whenever voice mode is still active. -/
theorem C6_success_speak (s : AppState) (text : String) (data : ChatResponse)
    (h1 : jsTrim text ≠ "") (h2 : data.textResponse ≠ "") :
    Action.speakCall data.textResponse
        ∈ (handleVoiceConversation text (.ok data) s).2
    ∧ (∀ st : AppState, st.isVoiceMode = true →
        voiceSpeakOnDone st = [Action.scheduleListen 1000]) := by
  constructor
  · simp [handleVoiceConversation, h1, h2]
  · intro st hst
    simp [voiceSpeakOnDone, hst]

/-- Claim C6 witness: a concrete successful turn speaks the response "cevap",
and with voice mode active the completion schedules the 1000 ms re-listen. -/
theorem C6_witness :
    Action.speakCall respW.textResponse
        ∈ (handleVoiceConversation "soru" (.ok respW) appW).2
    ∧ voiceSpeakOnDone appW = [Action.scheduleListen 1000] :=
  ⟨(C6_success_speak appW "soru" respW (by decide) (by decide)).1,
   (C6_success_speak appW "soru" respW (by decide) (by decide)).2 appW rfl⟩

/-- Claim C7: in manual mode, once a finalized segment is available the
transcript is copied into the input field, the internal transcript is reset
immediately, and running the consuming effect again changes nothing, so the
text is never double-applied. -/
theorem C7_manual_dictation (app : AppState) (c : CoordState)
    (h1 : c.finalTranscript ≠ "") (h2 : app.isVoiceMode = false) :
    (surfaceTranscript app c).1.input = hookTranscript c
    ∧ (surfaceTranscript app c).2.transcript = ""
    ∧ (surfaceTranscript app c).2.finalTranscript = ""
    ∧ surfaceTranscript (surfaceTranscript app c).1 (surfaceTranscript app c).2
        = surfaceTranscript app c := by
  have hne : hookTranscript c ≠ "" :=
    append_ne_empty_left c.finalTranscript c.transcript h1
  have hpos : hookTranscript c ≠ "" ∧ app.isVoiceMode = false := ⟨hne, h2⟩
  have e1 : surfaceTranscript app c
      = ({ app with input := hookTranscript c }, resetTranscript c) := by
    simp only [surfaceTranscript]
    rw [if_pos hpos]
  have e2 : surfaceTranscript { app with input := hookTranscript c }
        (resetTranscript c)
      = ({ app with input := hookTranscript c }, resetTranscript c) := by
    simp only [surfaceTranscript]
    rw [if_neg (fun hcontra => hcontra.1 rfl)]
  refine ⟨?_, ?_, ?_, ?_⟩
  · rw [e1]
  · rw [e1]
    rfl
  · rw [e1]
    rfl
  · rw [e1]
    exact e2

/-- Claim C7 witness: the finalized segment "test mesajı" is surfaced into the
input field of a concrete manual-mode state, the transcript is cleared, and
re-running the effect is inert. -/
theorem C7_witness :
    (surfaceTranscript c7app c7coord).1.input = hookTranscript c7coord
    ∧ (surfaceTranscript c7app c7coord).2.finalTranscript = ""
    ∧ surfaceTranscript (surfaceTranscript c7app c7coord).1
        (surfaceTranscript c7app c7coord).2
        = surfaceTranscript c7app c7coord :=
  ⟨(C7_manual_dictation c7app c7coord (by decide) rfl).1,
   (C7_manual_dictation c7app c7coord (by decide) rfl).2.2.1,
   (C7_manual_dictation c7app c7coord (by decide) rfl).2.2.2⟩

/-- Claim C8, failing input: teardown during a listening session whose
committed transcript is "merhaba" and whose one-shot callback is stored does
abort the recognition session and cancel the pending silence timer, but the
end event that abort() fires afterwards still runs the attached onend handler,
which invokes the stored callback — so a callback does fire after teardown,
contradicting the claim's last part. -/
theorem C8_teardown_callback_fires :
    c8state.sessionActive = false
    ∧ c8state.silenceTimer = none
    ∧ (run c8state [Event.endEv]).invocations = [(0, "merhaba")] := by
  decide

/-- Claim C9: starting from the idle synthesis state, any sequence of speak,
stop and completion operations keeps at most one utterance active, and calling
speak while already speaking behaves exactly as stopping the prior utterance
first (last-call-wins). -/
theorem C9_single_utterance (ops : List SynthOp) (t : String) :
    (synthRun synthInit ops).active.length ≤ 1
    ∧ ((synthRun synthInit ops).isSpeaking = true →
        speak t (synthRun synthInit ops)
          = speak t (stopSpeaking (synthRun synthInit ops))) := by
  have hinv : SynthInv (synthRun synthInit ops) :=
    synthRun_inv ops synthInit ⟨fun _ => rfl, by simp [synthInit]⟩
  refine ⟨hinv.2, fun hs => ?_⟩
  simp [speak, stopSpeaking, hs]

/-- Claim C9 witness: after speaking "a" then "b", only one utterance is
active, and speaking "c" equals stopping first then speaking "c". -/
theorem C9_witness :
    (synthRun synthInit [SynthOp.speakOp "a", SynthOp.speakOp "b"]).active.length ≤ 1
    ∧ speak "c" (synthRun synthInit [SynthOp.speakOp "a", SynthOp.speakOp "b"])
        = speak "c" (stopSpeaking (synthRun synthInit
            [SynthOp.speakOp "a", SynthOp.speakOp "b"])) :=
  ⟨(C9_single_utterance [SynthOp.speakOp "a", SynthOp.speakOp "b"] "c").1,
   (C9_single_utterance [SynthOp.speakOp "a", SynthOp.speakOp "b"] "c").2
     (by decide)⟩

/-- Claim C10: the hands-free turn handler returns immediately on empty or
whitespace-only text, leaving the App state untouched and emitting no
effects. -/
theorem C10_empty_guard (s : AppState) (r : Except ChatError ChatResponse)
    (text : String) (h : jsTrim text = "") :
    handleVoiceConversation text r s = (s, []) := by
  simp [handleVoiceConversation, h]

/-- Claim C10 witness: whitespace-only input leaves a concrete state untouched
with no effects. -/
theorem C10_witness :
    handleVoiceConversation "   " (.error .other) appW = (appW, []) :=
  C10_empty_guard appW (.error .other) "   " (by decide)

end SpeechChat
